import Mathlib

/-!
Shallow embedding of the core of sasq64/rustplay (a terminal chiptune player)
used to verify its natural-language specification.

Conventions of the embedding:
* Rust methods that mutate `&mut self` and return `Result<T, E>` become Lean
  functions `State → State × Except String T`; the returned state is the
  post-state even when the result is an error (Rust mutations performed before
  the failing `?` are kept, exactly as in the source).
* `f64` metadata payloads are modelled over `Int`: every event value reasoned
  about here carries an integral payload (`0`, `1`, song counts, ...).
* External crates (musix codecs, rubato resampling numerics, the
  spectrum-analyzer FFT, tantivy's query parser/scorer, the mp3 tag probe) are
  not part of this repository; they enter as explicit function parameters so
  that each theorem is quantified over their behaviour, while everything the
  repository's own code does is translated concretely.
-/

namespace RustPlay

/-! Value (src/src/value.rs).  `Number` holds `f64` in the source; modelled
over `Int` (see header).  `Error` holds a `MusicError { msg }`, modelled as
its message string. -/

inductive Value where
  | Text (s : String)
  | Number (n : Int)
  | Data (d : List Nat)
  | Error (e : String)
  | Unknown
deriving DecidableEq, Repr

/-- Info events sent from the audio engine to the UI (src/src/player.rs). -/
abbrev Info := String × Value

/-! PlayState and Player (src/src/player.rs). -/

inductive PlayState where
  | Stopped
  | Playing
  | Paused
  | Quitting
deriving DecidableEq, Repr

/-- The `("state", ..)` event payload.  The source pushes the `PlayState`
value itself; its numeric code follows the (commented-out) conversion in
src/src/player.rs lines 101-111. -/
def state_code : PlayState → Value
  | .Stopped => .Number 0
  | .Playing => .Number 1
  | .Paused => .Number 2
  | .Quitting => .Number 3

/-- The external musix `ChipPlayer` capability.  Its decoding behaviour
(`get_samples`, `get_frequency`) lives in the engine environment below; the
per-song changed-metadata stream drained by `get_changed_meta` /
`get_meta_string` is carried here as (key, value) pairs. -/
structure ChipPlayer where
  pending_meta : List (String × String) := []
deriving DecidableEq, Repr

/-- Player state (src/src/player.rs, struct `Player`).  `millis` is the shared
atomic clock `Arc<AtomicUsize>`, modelled as a plain counter. -/
structure Player where
  chip_player : Option ChipPlayer := none
  song : Int := 0
  songs : Int := 0
  millis : Nat := 0
  play_state : PlayState := .Stopped
  ff_msec : Nat := 0
  new_song : Option String := none
deriving DecidableEq, Repr

/-- Player::reset: zero the shared millisecond clock. -/
def Player.reset (p : Player) : Player := { p with millis := 0 }

/-- Player::next_song.  `cp.seek(song + 1, 0)` acts only on the decoder, not
on any `Player` field. -/
def Player.next_song (p : Player) : Player × Except String Bool :=
  match p.chip_player with
  | none => (p, .error "No active song")
  | some _cp =>
    if p.song < p.songs - 1 then (p.reset, .ok true) else (p, .ok true)

/-- Player::prev_song.  Note the guard shape `if self.song > 0 && let Some(cp)`:
with no chip player it falls through and returns `Ok(true)`. -/
def Player.prev_song (p : Player) : Player × Except String Bool :=
  if 0 < p.song then
    match p.chip_player with
    | some _cp => (p.reset, .ok true)
    | none => (p, .ok true)
  else (p, .ok true)

/-- Player::set_song: stores the requested index unconditionally, then seeks
the decoder and resets the clock. -/
def Player.set_song (p : Player) (song : Int) : Player × Except String Bool :=
  match p.chip_player with
  | some _cp => ({ p with song := song, millis := 0 }, .ok true)
  | none => (p, .ok true)

/-- Player::load.  The source drops the current player
(`self.chip_player = None;`) before calling the fallible `musix::load_song`,
so the pre-load player is gone even when loading fails.  `load_song` is the
external codec loader. -/
def Player.load (load_song : String → Except String ChipPlayer) (p : Player)
    (name : String) : Player × Except String Bool :=
  let p1 : Player := { p with chip_player := none }
  match load_song name with
  | .error e => (p1, .error e)
  | .ok cp =>
    ({ p1 with chip_player := some cp, millis := 0, new_song := some name,
               play_state := .Playing }, .ok true)

/-- Player::ff: adds to the fast-forward budget. -/
def Player.ff (p : Player) (msec : Nat) : Player × Except String Bool :=
  ({ p with ff_msec := p.ff_msec + msec }, .ok true)

/-- Player::play_pause. -/
def Player.play_pause (p : Player) : Player × Except String Bool :=
  (({ p with play_state :=
      match p.play_state with
      | .Paused => .Playing
      | .Playing => .Paused
      | s => s }), .ok true)

/-- Player::quit. -/
def Player.quit (p : Player) : Player × Except String Bool :=
  ({ p with play_state := .Quitting }, .ok true)

/-! Player::update_meta (src/src/player.rs lines 194-245). -/

/-- Rust `str::parse::<i32>`: integer parse with the i32 range check. -/
def parse_i32 (s : String) : Except String Int :=
  match s.toInt? with
  | some n =>
    if -(2 ^ 31) ≤ n ∧ n < 2 ^ 31 then .ok n
    else .error "number too large to fit in target type"
  | none => .error "invalid digit found in string"

/-- Rust `str::parse::<f64>` for the "length" metadata value, restricted to the
integral payloads this development reasons about (see header). -/
def parse_f64 (s : String) : Except String Int :=
  match s.toInt? with
  | some n => .ok n
  | none => .error "invalid float literal"

/-- Path::extension equals "mp3", on a path modelled as a plain string. -/
def hasMp3Ext (path : String) : Bool := path.endsWith ".mp3"

/-- The metadata drain of Player::update_meta: each pair is one
`get_changed_meta` key together with its `get_meta_string` value
(`unwrap_or(String::new())` already applied).  The events sent before a
failing parse are returned alongside the error: `info_producer.push_value`
sends through the channel immediately, so a later `?` does not take earlier
events back. -/
def drain_meta : Player → List (String × String) → List Info × Except String Player
  | p, [] => ([], .ok p)
  | p, (meta, val) :: rest =>
    let step : Except String (Player × Value) :=
      if meta = "song" ∨ meta = "startSong" then do
        let n ← parse_i32 val
        pure ({ p with song := n }, Value.Number n)
      else if meta = "songs" then do
        let n ← parse_i32 val
        pure ({ p with songs := n }, Value.Number n)
      else if meta = "length" then do
        let n ← parse_f64 val
        pure (p, Value.Number n)
      else
        pure (p, Value.Text val)
    match step with
    | .error e => ([], .error e)
    | .ok (p1, v) =>
      let (evs, r) := drain_meta p1 rest
      ((meta, v) :: evs, r)

/-- Player::update_meta.  `mp3_probe` stands for the external
`mp3_duration::from_path` / id3 tag probe: the "length" / "album" /
"composer" / "title" events it pushes for an mp3 path.  Returns the events
sent plus either the updated player or a fatal parse error. -/
def Player.update_meta (mp3_probe : String → List Info) (p : Player) :
    List Info × Except String Player :=
  let (p1, evs1) :=
    match p.new_song with
    | some new_song =>
      let base : List Info :=
        [("new", .Number 0), ("song", .Number 0), ("songs", .Number 1)]
      let mp3evs := if hasMp3Ext new_song then mp3_probe new_song else []
      (({ p with new_song := none, song := 0, songs := 1 } : Player), base ++ mp3evs)
    | none => (p, [])
  match p1.chip_player with
  | some cp =>
    let (evs2, r) :=
      drain_meta { p1 with chip_player := some { cp with pending_meta := [] } }
        cp.pending_meta
    (evs1 ++ evs2, r)
  | none => (evs1, .ok p1)

/-! Commands and the audio engine loop (src/src/player.rs lines 262-371).
In the source a command is an arbitrary closure `FnOnce(&mut Player) ->
PlayResult`; the UI only ever sends the Player methods below
(src/src/rustplay.rs), so commands are embedded as that variant set. -/

inductive Cmd where
  | load (name : String)
  | next_song
  | prev_song
  | set_song (n : Int)
  | play_pause
  | quit
  | ff (msec : Nat)
deriving DecidableEq, Repr

def applyCmd (load_song : String → Except String ChipPlayer) :
    Cmd → Player → Player × Except String Bool
  | .load name, p => p.load load_song name
  | .next_song, p => p.next_song
  | .prev_song, p => p.prev_song
  | .set_song n, p => p.set_song n
  | .play_pause, p => p.play_pause
  | .quit, p => p.quit
  | .ff n, p => p.ff n

/-- The command drain at the top of each engine iteration: every pending
command is run; a command that fails produces an `("error", ..)` info event
and the loop continues. -/
def drainCommands (load_song : String → Except String ChipPlayer) :
    List Cmd → Player → Player × List Info
  | [], p => (p, [])
  | c :: cs, p =>
    let (p1, r) := applyCmd load_song c p
    let evs : List Info :=
      match r with
      | .error e => [("error", Value.Error e)]
      | .ok _ => []
    let (p2, evs2) := drainCommands load_song cs p1
    (p2, evs ++ evs2)

/-- Capacity of the audio FIFO (`RING_BUFFER_SIZE`). -/
def RING_BUFFER_SIZE : Nat := 8192

/-- Environment of external behaviour the engine loop interacts with.  The
decoder is modelled per `get_samples` call index: `get_samples n` is the
sample count returned by the n-th call, `get_frequency n` the rate the codec
reports right after it.  `resample_len` is the output length of the external
sinc resampler when not in passthrough, `fft_data` the bytes produced by the
(external) spectrum computation. -/
structure Env where
  load_song : String → Except String ChipPlayer
  get_samples : Nat → Nat
  get_frequency : Nat → Nat
  mp3_probe : String → List Info
  -- output length of the sinc resampler when fed a full, correctly-sized
  -- buffer (the only case in which rubato's fixed-input resampler succeeds)
  resample_len : Nat → Nat
  fft_data : Nat → List Nat

/-- Engine-loop state threaded between iterations of `run_audio_loop`:
the player, the `last_state` snapshot, the current plugin frequency, the
resampler's (source, target) rates, the ring-buffer fill level, and the
number of `get_samples` calls made so far. -/
structure EngineState where
  player : Player
  last_state : PlayState
  plugin_freq : Nat
  resampler_source : Nat
  resampler_target : Nat
  ring_occupied : Nat
  calls : Nat
deriving Repr

/-- One iteration of the `while player.play_state != Quitting` body of
`run_audio_loop`: drain commands, report a state change, publish metadata,
then either fast-forward, produce one buffer, or sleep.  The result carries
the info events sent during the iteration (channel sends happen immediately)
plus either the next engine state or a fatal error (the `?` propagations in
the source).  The fatal paths: a metadata parse failure; rubato rejecting a
reconfigured ratio outside [1/4, 4] (`SincFixedIn::new(1.0, 4.0, ..)`); and,
when not in passthrough, `resampler.process(&samples)?` fed anything other
than a full buffer — the fixed-input `SincFixedIn` (chunk `buffer_size/2`
frames, from `Resampler::new(buffer_size / 2)`) rejects a wrong input frame
count, which happens exactly when `rc != buffer_size` (buffer sizes are
even).  `fft.run` cannot fail on this input (finite floats, padded to a
power of two), so it stays total. -/
def engineStep (env : Env) (playback_freq buffer_size : Nat) (cmds : List Cmd)
    (st : EngineState) : List Info × Except String EngineState :=
  let (p1, errEvs) := drainCommands env.load_song cmds st.player
  let (last1, stEvs) :=
    if p1.play_state ≠ st.last_state then
      (p1.play_state, ([("state", state_code p1.play_state)] : List Info))
    else (st.last_state, [])
  match p1.update_meta env.mp3_probe with
  | (metaEvs, .error e) => (errEvs ++ stEvs ++ metaEvs, .error e)
  | (metaEvs, .ok p2) =>
    match p2.chip_player with
    | some _cp =>
      if 0 < p2.ff_msec then
        -- Fast forward mode: samples are pulled and discarded (clock still runs)
        let rc := env.get_samples st.calls
        let ms := rc * 1000 / (st.plugin_freq * 2)
        let ffm := if ms > p2.ff_msec then 0 else p2.ff_msec - ms
        let doneEvs : List Info := if rc = 0 then [("done", Value.Number 0)] else []
        let p3 : Player := { p2 with ff_msec := ffm, millis := p2.millis + ms }
        (errEvs ++ stEvs ++ metaEvs ++ doneEvs,
          .ok { st with player := p3, last_state := last1, calls := st.calls + 1 })
      else if RING_BUFFER_SIZE - st.ring_occupied > buffer_size * 2 ∧
          p2.play_state = .Playing then
        -- Normal playback mode; the ("done", 0) push precedes the frequency
        -- check and the resampling, so it is sent even on the fatal paths
        let rc := env.get_samples st.calls
        let doneEvs : List Info := if rc = 0 then [("done", Value.Number 0)] else []
        let hz := env.get_frequency st.calls
        let freqStep : Except String EngineState :=
          if hz ≠ st.plugin_freq then
            if 4 * playback_freq < hz ∨ 4 * hz < playback_freq then
              .error "Resampler: ResampleRatioOutOfBounds"
            else
              .ok { st with plugin_freq := hz, resampler_source := hz,
                            resampler_target := playback_freq }
          else .ok st
        match freqStep with
        | .error e => (errEvs ++ stEvs ++ metaEvs ++ doneEvs, .error e)
        | .ok st1 =>
          let processStep : Except String Nat :=
            if st1.resampler_source = st1.resampler_target then .ok rc
            else if rc = buffer_size then .ok (env.resample_len st.calls)
            else .error "Resampler: WrongNumberOfFrames"
          match processStep with
          | .error e => (errEvs ++ stEvs ++ metaEvs ++ doneEvs, .error e)
          | .ok out_len =>
            let pushed := min (RING_BUFFER_SIZE - st.ring_occupied) out_len
            let fftEvs : List Info :=
              if rc = buffer_size then [("fft", Value.Data (env.fft_data st.calls))]
              else []
            (errEvs ++ stEvs ++ metaEvs ++ doneEvs ++ fftEvs,
              .ok { st1 with player := p2, last_state := last1,
                             ring_occupied := st.ring_occupied + pushed,
                             calls := st.calls + 1 })
      else
        -- thread::sleep(AUDIO_THREAD_SLEEP_MS)
        (errEvs ++ stEvs ++ metaEvs,
          .ok { st with player := p2, last_state := last1 })
    | none =>
      -- thread::sleep(IDLE_SLEEP_MS)
      (errEvs ++ stEvs ++ metaEvs,
        .ok { st with player := p2, last_state := last1 })

/-- Bounded run of the engine loop: one list of pending commands per
iteration.  When the loop condition fails, `("quit", 1)` is pushed and the
loop stops; a fatal step ends the run with the events sent so far; with the
fuel exhausted the (partial) trace so far is returned. -/
def engineRun (env : Env) (playback_freq buffer_size : Nat) :
    List (List Cmd) → EngineState → List Info × Except String EngineState
  | [], st => ([], .ok st)
  | cmds :: rest, st =>
    if st.player.play_state = .Quitting then
      ([("quit", Value.Number 1)], .ok st)
    else
      match engineStep env playback_freq buffer_size cmds st with
      | (evs, .error e) => (evs, .error e)
      | (evs, .ok st1) =>
        let (evs2, r) := engineRun env playback_freq buffer_size rest st1
        (evs ++ evs2, r)

/-! Ring buffer consumer side and the audio output callback
(src/src/player.rs lines 284-291).  Samples are generic in the element type
(f32 in the source); the ring is the queue contents oldest-first, `data` the
device's output buffer. -/

/-- ringbuf `Consumer::pop_slice`: moves `min data.length ring.length`
elements from the front of the ring into the front of `data`, leaving the
rest of `data` untouched; returns (ring', data', count). -/
def pop_slice {α : Type} : List α → List α → List α × List α × Nat
  | ring, [] => (ring, [], 0)
  | [], data => ([], data, 0)
  | x :: ring, _d :: data =>
    let (ring', data', k) := pop_slice ring data
    (ring', x :: data', k + 1)

/-- The audio callback closure handed to `AudioDevice::play`: pop into the
output buffer; if anything was read advance the millisecond clock by
`data.len() * 1000 / (playback_freq * 2)`, otherwise (and only then)
zero-fill the whole buffer.  Returns (ring after, output buffer after,
clock after). -/
def audio_callback {α : Type} (zero : α) (playback_freq : Nat) (msec : Nat)
    (ring data : List α) : List α × List α × Nat :=
  let (ring', data', k) := pop_slice ring data
  if k > 0 then
    let ms := data.length * 1000 / (playback_freq * 2)
    (ring', data', msec + ms)
  else
    (ring, List.replicate data.length zero, msec)

/-! Resampler (src/src/resampler.rs).  Rates are `f64` in the source,
modelled as rationals; the windowed-sinc computation itself is the external
rubato crate and enters as the `core` parameter of `process`. -/

structure Resampler where
  source_hz : ℚ
  target_hz : ℚ
  buffer_size : Nat
deriving DecidableEq, Repr

/-- Resampler::new: fresh state with both rates at 44100. -/
def Resampler.new (buffer_size : Nat) : Resampler :=
  { source_hz := 44100, target_hz := 44100, buffer_size }

/-- Resampler::set_frequencies: stores both rates, then calls rubato's
`set_resample_ratio(target/source, false)`, which fails for ratios outside
[1/4, 4] (from `SincFixedIn::new(1.0, 4.0, ..)`).  Both fields are updated
before the fallible call, exactly as in the source. -/
def Resampler.set_frequencies (r : Resampler) (source_hz target_hz : ℚ) :
    Resampler × Except String Unit :=
  let r1 : Resampler := { r with source_hz := source_hz, target_hz := target_hz }
  if source_hz ≠ 0 ∧ (1 / 4 : ℚ) ≤ target_hz / source_hz ∧ target_hz / source_hz ≤ 4 then
    (r1, .ok ())
  else (r1, .error "ResampleRatioOutOfBounds")

/-- Resampler::process: when `source_hz != target_hz` the input is
deinterleaved, resampled by the external sinc core and reinterleaved
(abstracted as `core`); otherwise the input slice itself is returned. -/
def Resampler.process (core : List ℚ → Except String (List ℚ)) (r : Resampler)
    (samples : List ℚ) : Except String (List ℚ) :=
  if r.source_hz ≠ r.target_hz then core samples
  else .ok samples

/-! FFT stage (src/src/player/fft.rs).  The fold/pad steps are the
repository's own code; `hann_window` and `samples_fft_to_spectrum` are the
external spectrum-analyzer crate, modelled from its contract: the window is a
length-preserving pointwise weighting, and the spectrum has one entry per FFT
bin index `i ∈ [0, N/2]` whose frequency `i·freq/N` lies in
[min_freq, max_freq], with value-dependent magnitudes abstracted as `mag`. -/

structure Fft where
  divider : Nat
  min_freq : ℚ
  max_freq : ℚ
deriving DecidableEq, Repr

/-- External `hann_window`: pointwise multiplication by the (cosine-based)
window weights `w`. -/
def hann_window (w : Nat → ℚ) (samples : List ℚ) : List ℚ :=
  samples.mapIdx (fun i x => w i * x)

/-- External `samples_fft_to_spectrum` restricted to
`FrequencyLimit::Range(min_freq, max_freq)`: the selected (frequency,
magnitude) pairs. -/
def samples_fft_to_spectrum (mag : List ℚ → Nat → ℚ) (window : List ℚ)
    (freq : Nat) (min_freq max_freq : ℚ) : List (ℚ × ℚ) :=
  let n := window.length
  ((List.range (n / 2 + 1)).filter
      (fun (i : Nat) => decide (min_freq ≤ ((i : ℚ) * freq) / n ∧ ((i : ℚ) * freq) / n ≤ max_freq))).map
    (fun (i : Nat) => (((i : ℚ) * freq) / n, mag window i))

/-- Rust `as u8` on a float: saturating truncation into [0, 255]. -/
def toU8 (x : ℚ) : Nat := min 255 (max 0 x.floor).toNat

/-- Rust `usize::next_power_of_two`: the least power of two that is ≥ n
(and 1 for n = 0), written as `2 ^ ⌈log₂ n⌉`. -/
def nextPow2 (n : Nat) : Nat := 2 ^ Nat.clog 2 n

/-- The number of selected frequency bins for FFT size `n`: the bin indices
`i ∈ [0, n/2]` with `min_freq ≤ i·freq/n ≤ max_freq`. -/
def numBins (n : Nat) (freq : Nat) (min_freq max_freq : ℚ) : Nat :=
  ((List.range (n / 2 + 1)).filter
      (fun (i : Nat) => decide (min_freq ≤ ((i : ℚ) * freq) / n ∧ ((i : ℚ) * freq) / n ≤ max_freq))).length

/-- Fft::run: fold stereo by summing each `divider`-chunk (`chunks(divider)`
yields `⌈len/divider⌉` chunks, the i-th being the slice starting at
`i·divider`), right-pad with zeros to the next power of two, window,
transform, and map each magnitude through `· * 0.75 as u8`. -/
def Fft.run (w : Nat → ℚ) (mag : List ℚ → Nat → ℚ) (fft : Fft)
    (samples : List ℚ) (freq : Nat) : List Nat :=
  let mix : List ℚ :=
    (List.range ((samples.length + fft.divider - 1) / fft.divider)).map
      (fun i => ((samples.drop (i * fft.divider)).take fft.divider).sum)
  let fft_size := nextPow2 mix.length
  let padded := mix ++ List.replicate (fft_size - mix.length) 0
  let window := hann_window w padded
  let spectrum := samples_fft_to_spectrum mag window freq fft.min_freq fft.max_freq
  spectrum.map (fun p => toU8 (p.2 * (3 / 4)))

/-! Indexer (src/src/rustplay/indexer.rs).  A filesystem path is modelled as
its list of components, root first; `file_name` is the last component and
`ancestors().filter_map(file_name)` is the reversed component list. -/

abbrev RPath := List String

/-- The Modland format-directory table (`FORMAT_DIRS`, 327 entries; the two
commented-out source entries are omitted, as in the source). -/
def FORMAT_DIRS : List String :=
  ["Actionamics", "Activision Pro", "Aero Studio", "AHX", "All Sound Tracker", "AM Composer",
   "Anders Oland", "AND XSynth", "AProSys", "ArkosTracker", "Art And Magic", "Art Of Noise",
   "Asylum", "Atari Digi-Mix", "Athtune", "Audio Sculpture", "AXS", "AY Amadeus", "AY Emul",
   "AY STRC", "Beathoven Synthesizer", "Beaver Sweeper", "Beepola", "Ben Daglish",
   "Ben Daglish SID", "BeRoTracker", "BoyScout", "BP SoundMon 2", "BP SoundMon 3", "Buzz",
   "Buzzic 1.0", "Buzzic 1.1", "Buzzic 2.0", "Capcom Q-Sound Format", "CBA", "Cinemaware",
   "Composer 669", "Compoz", "Core Design", "Cubic Tiny XM", "CustomMade", "Cybertracker",
   "Cybertracker C64", "Darius Zendeh", "DarkWave Studio", "Dave Lowe", "Dave Lowe New",
   "David Hanney", "David Whittaker", "Delitracker Custom", "Delta Music", "Delta Music 2",
   "Delta Packer", "Desire", "Digibooster", "Digibooster Pro", "Digital-FM Music",
   "Digital Mugician", "Digital Mugician 2", "Digital Sonix And Chrome",
   "Digital Sound And Music Interface", "Digital Sound Interface Kit",
   "Digital Sound Interface Kit RIFF", "Digital Sound Studio", "DigitalTracker",
   "Digital Tracker DTM", "Digital Tracker MOD", "Digitrakker", "Digitrekker", "Dirk Bialluch",
   "Disorder Tracker 2", "Dreamcast Sound Format", "DreamStation", "Dynamic Studio Professional",
   "Dynamic Synthesizer", "EarAche", "Electronic Music System", "Electronic Music System v6",
   "Epic Megagames MASI", "Extreme Tracker", "Face The Music", "FamiTracker",
   "Farandole Composer", "Fashion Tracker", "Fasttracker", "Fasttracker 2", "Follin Player II",
   "Forgotten Worlds", "Fred Gray", "FredMon", "FuchsTracker", "Funktracker",
   "Future Composer 1.3", "Future Composer 1.4", "Future Composer BSI", "Future Player",
   "Gameboy Sound Format", "Gameboy Sound System", "Gameboy Sound System GBR", "Gameboy Tracker",
   "Game Music Creator", "General DigiMusic", "GlueMon", "GoatTracker", "GoatTracker 2",
   "GoatTracker Stereo", "Graoumf Tracker", "Graoumf Tracker 2", "GT Game Systems", "HES",
   "Hippel", "Hippel 7V", "Hippel-Atari", "Hippel-COSO", "Hippel-ST", "HivelyTracker",
   "Howie Davies", "Images Music System", "Imago Orpheus", "Impulsetracker", "InStereo!",
   "InStereo! 2.0", "Ixalance", "JamCracker", "Janko Mrsic-Flogel", "Jason Brooke", "Jason Page",
   "Jason Page Old", "JayTrax", "Jeroen Tel", "Jesper Olsen", "Ken\x27s Digital Music",
   "Klystrack", "Kris Hatlelid", "KSS", "Leggless Music Editor", "Lionheart", "Liquid Tracker",
   "Mad Tracker 2", "Magnetic Fields Packer", "Maniacs Of Noise", "Maniacs Of Noise Old",
   "Mark Cooksey", "Mark Cooksey Old", "Mark II", "MaxTrax", "MCMD", "Medley", "Megadrive CYM",
   "Megadrive GYM", "MegaStation", "MegaStation MIDI", "Megatracker", "Mike Davies",
   "MikMod UNITRK", "Monotone", "MultiMedia Sound", "Multitracker", "Music Assembler",
   "Music Editor", "Musicline Editor", "MusicMaker", "MusicMaker v8", "MVS Tracker",
   "MVX Module", "NerdTracker 2", "Nintendo DS Sound Format", "Nintendo Sound Format",
   "Nintendo SPC", "NoiseTrekker", "NoiseTrekker 2", "NovoTrade Packer", "Octalyser",
   "OctaMED MMD0", "OctaMED MMD1", "OctaMED MMD2", "OctaMED MMD3", "OctaMED MMDC", "Oktalyzer",
   "Onyx Music File", "Organya", "Organya 2", "Paul Robotham", "Paul Shields", "Paul Summers",
   "Peter Verswyvelen", "Picatune", "Picatune2", "Pierre Adane Packer", "Piston Collage",
   "Piston Collage Protected", "PlayerPro", "PlaySID", "Playstation Sound Format", "PMD",
   "PokeyNoise", "Pollytracker", "Polytracker", "Powertracker", "Professional Sound Artists",
   "Protracker", "Protracker 3.6", "ProTrekkr", "ProTrekkr 2.0", "Psycle", "Pumatracker",
   "Quadra Composer", "Quartet PSG", "Quartet ST", "RamTracker", "RealSID", "Real Tracker",
   "Renoise", "Renoise 1.8", "Renoise 2.0", "Renoise 2.1", "Renoise 2.5", "Renoise 2.7",
   "Renoise Old", "Richard Joseph", "Riff Raff", "Rob Hubbard", "Rob Hubbard 2",
   "Rob Hubbard ST", "Ron Klaren", "S98", "Sam Coupe COP", "Sam Coupe SNG",
   "Saturn Sound Format", "SBStudio", "SC68", "Screamtracker 2", "Screamtracker 3", "SCUMM",
   "Sean Connolly", "Sean Conran", "Shroom", "SidMon 1", "SidMon 2", "Sidplayer", "Silmarils",
   "Skale Tracker", "Slight Atari Player", "SNDH", "Sonic Arranger", "Sound Club",
   "Sound Club 2", "SoundControl", "SoundFactory", "SoundFX", "SoundFX 2", "Sound Images",
   "Sound Master", "Sound Master II v1", "Sound Master II v3", "SoundPlayer",
   "Sound Programming Language", "SoundTracker 2.6", "SoundTracker Pro II", "Special FX",
   "Special FX ST", "Spectrum ASC Sound Master", "Spectrum Fast Tracker",
   "Spectrum Flash Tracker", "Spectrum Fuxoft AY Language", "Spectrum Global Tracker",
   "Spectrum Pro Sound Creator", "Spectrum Pro Sound Maker", "Spectrum Pro Tracker 1",
   "Spectrum Pro Tracker 2", "Spectrum Pro Tracker 3", "Spectrum Sound Tracker 1.1",
   "Spectrum Sound Tracker 1.3", "Spectrum Sound Tracker Pro", "Spectrum Sound Tracker Pro 2",
   "Spectrum SQ Tracker", "Spectrum ST Song Compiler", "Spectrum Vortex",
   "Spectrum Vortex Tracker II", "Spectrum ZXS", "Speedy A1 System", "Speedy System", "SPU",
   "Starkos", "Startrekker AM", "Stereo Sidplayer", "Steve Barrett", "Stonetracker", "SunTronic",
   "SunVox", "Super Nintendo Sound Format", "SVAr Tracker", "Symphonie", "Synder SNG-Player",
   "Synder SNG-Player Stereo", "Synder Tracker", "Synth Dream", "Synthesis", "Synth Pack",
   "SynTracker", "TCB Tracker", "TFM Music Maker", "TFMX", "TFMX ST",
   "The 0ok Amazing Synth Tracker", "The Holy Noise", "The Musical Enlightenment",
   "Thomas Hermann", "Tomy Tracker", "TSS", "Tunefish", "Ultra64 Sound Format", "Ultratracker",
   "Unique Development", "Unis 669", "V2", "Velvet Studio", "VGM Music Maker", "Vic-Tracker",
   "Video Game Music", "Voodoo Supreme Synthesizer", "Wally Beben", "WonderSwan", "X-Tracker",
   "YM", "YMST", "Zoundmonitor"]

/-- musix `SongInfo` (external), with `SongInfo::default()` giving empty
strings. -/
structure SongInfo where
  title : String := ""
  composer : String := ""
  game : String := ""
deriving DecidableEq, Repr

/-- FileInfo (indexer.rs): a path with a metadata map (modelled as an
association list). -/
structure FileInfo where
  path : RPath
  meta_data : List (String × Value)
deriving DecidableEq, Repr

/-- A tantivy document over the indexer schema: `title`, `composer` and
`file_name` are TEXT fields, `path` is stored; absent fields are `none`. -/
structure Doc where
  title : Option String := none
  composer : Option String := none
  file_name : Option String := none
  path : Option String := none
deriving DecidableEq, Repr

/-- Rust `Path::file_stem` on the final component: the whole name when it has
no dot (or is a lone leading-dot name), else the part before the final dot. -/
def fileStem (name : String) : String :=
  match name.splitOn "." with
  | [] => name
  | [_] => name
  | "" :: [_] => name
  | parts => String.intercalate "." parts.dropLast

/-- Path components joined back into the display string stored in the `path`
field. -/
def pathString (p : RPath) : String := String.intercalate "/" p

/-- Indexer state: documents pending in the IndexWriter, committed documents
visible to the reader/searcher, the current search result, the warm
`song_list`, and the global counter. -/
structure Indexer where
  pending : List Doc := []
  committed : List Doc := []
  result : List FileInfo := []
  song_list : List FileInfo := []
  count : Nat := 0
deriving DecidableEq, Repr

/-- Indexer::add_with_info: bump the counter, add a document carrying title,
composer, file name and path, and seed the warm list while it holds fewer
than 100 entries.  Fails (`context("No filename")`) on a path without a final
component. -/
def Indexer.add_with_info (ix : Indexer) (song_path : RPath) (info : SongInfo) :
    Except String Indexer := do
  let ix1 : Indexer := { ix with count := ix.count + 1 }
  let fname ←
    match song_path.getLast? with
    | some f => Except.ok f
    | none => Except.error "No filename"
  let d : Doc := { title := some info.title, composer := some info.composer,
                   file_name := some fname, path := some (pathString song_path) }
  let ix2 : Indexer := { ix1 with pending := ix1.pending ++ [d] }
  if ix2.song_list.length < 100 then
    pure { ix2 with song_list := ix2.song_list ++
      [{ path := song_path,
         meta_data := [("title", Value.Text info.title),
                       ("composer", Value.Text info.composer)] }] }
  else
    pure ix2

/-- Indexer::add_path: the Modland heuristic over the ancestor chain
(`<format>/<composer>/<file>` or `<format>/<composer>/<game>/<file>` with
`<format>` in `FORMAT_DIRS`), else a plain file-name/path document. -/
def Indexer.add_path (ix : Indexer) (song_path : RPath) : Except String Indexer :=
  let segments := song_path.reverse
  let l := segments.length
  if 3 ≤ l ∧ segments.getD 2 "" ∈ FORMAT_DIRS then
    let info : SongInfo :=
      { title := fileStem (segments.getD 0 ""), composer := segments.getD 1 "", game := "" }
    ix.add_with_info song_path info
  else if 4 ≤ l ∧ segments.getD 3 "" ∈ FORMAT_DIRS then
    let info : SongInfo :=
      { title := fileStem (segments.getD 0 ""), game := segments.getD 1 "",
        composer := segments.getD 2 "" }
    ix.add_with_info song_path info
  else do
    let ix1 : Indexer := { ix with count := ix.count + 1 }
    let fname ←
      match song_path.getLast? with
      | some f => Except.ok f
      | none => Except.error "No filename"
    let d : Doc := { file_name := some fname, path := some (pathString song_path) }
    let ix2 : Indexer := { ix1 with pending := ix1.pending ++ [d] }
    if ix2.song_list.length < 100 then
      pure { ix2 with song_list := ix2.song_list ++
        [{ path := song_path, meta_data := [] }] }
    else
      pure ix2

/-- Indexer::commit: pending documents become visible to the reader. -/
def Indexer.commit (ix : Indexer) : Indexer :=
  { ix with committed := ix.committed ++ ix.pending, pending := [] }

/-- The per-file body of `RemoteIndexer::run`: identified files go through
`add_with_info`, all others through `add_path`.  `identify` stands for
`Indexer::identify_song`, which returns `Result<Option<SongInfo>>`: the SID
shortcut's `File::open(path)?.read_exact(&mut buf)?` can fail (unreadable
file, header shorter than 0x60 bytes), and `run` propagates that error with
`?`, aborting the walk (the worker thread panics via `expect("Fail")`). -/
def addFiles (identify : RPath → Except String (Option SongInfo)) :
    Indexer → List RPath → Except String Indexer
  | ix, [] => pure ix
  | ix, f :: fs => do
    let idr ← identify f
    let ix1 ←
      match idr with
      | some info => ix.add_with_info f info
      | none => ix.add_path f
    addFiles identify ix1 fs

/-- RemoteIndexer::run handling one `AddPath` command: the walk visits
`files` (the regular files under the root, in walk order) and commits at the
end; an aborted walk (an `identify_song` error) skips the final commit.  The
intermediate 1-second batch commits only affect visibility timing, not the
final state. -/
def runAddPath (identify : RPath → Except String (Option SongInfo))
    (ix : Indexer) (files : List RPath) : Except String Indexer := do
  let ix1 ← addFiles identify ix files
  pure ix1.commit

/-- tantivy `get_string`: a present string field, or "???" when absent. -/
def get_string (v : Option String) : String :=
  match v with
  | some s => s
  | none => "???"

/-- Indexer::search.  `parse` is the external tantivy `QueryParser`
(returning, for a parsable query, the searcher's scored-and-ordered document
retrieval) and fails before `result.clear()`.  A successful search replaces
`result` by the top documents (limit 10000) converted to `FileInfo`. -/
def Indexer.search (parse : String → Option (List Doc → List Doc))
    (ix : Indexer) (q : String) : Indexer × Except String Unit :=
  match parse q with
  | none => (ix, .error "query parse error")
  | some runq =>
    let top_docs := (runq ix.committed).take 10000
    let res := top_docs.map (fun d =>
      ({ path := [get_string d.path],
         meta_data := [("title", Value.Text (get_string d.title)),
                       ("composer", Value.Text (get_string d.composer))] } : FileInfo))
    ({ ix with result := res }, .ok ())

/-- Rust slice indexing `v[a..b]`: the slice when `a ≤ b ≤ v.len()`, a panic
otherwise (modelled as an error result). -/
def rustSlice {α : Type} (v : List α) (a b : Nat) : Except String (List α) :=
  if a ≤ b ∧ b ≤ v.length then .ok ((v.drop a).take (b - a))
  else .error "range out of bounds"

/-- RemoteIndexer::get_songs over the current result list: empty result gives
`[]`; otherwise `stop` is clamped to the result length and the slice
`result[start..]` bound is taken verbatim. -/
def get_songs {α : Type} (result : List α) (start stop : Nat) :
    Except String (List α) :=
  let song_len := result.length
  if song_len = 0 then .ok []
  else if stop > song_len then rustSlice result start song_len
  else rustSlice result start stop

/-! Concrete inputs and small observers used by individual claims. -/

/-- Invariant claimed for the player: `song ∈ [0, songs)`. -/
def songInv (p : Player) : Prop := 0 ≤ p.song ∧ p.song < p.songs

instance (p : Player) : Decidable (songInv p) := by
  unfold songInv
  infer_instance

/-- Number of `("done", 0)` events in an event trace. -/
def doneCount (evs : List Info) : Nat :=
  (evs.filter (fun ev => decide (ev = ("done", Value.Number 0)))).length

/-- Environment of a decoder that is already exhausted: every `get_samples`
call returns 0, the codec rate stays at the device rate. -/
def exhaustedEnv : Env :=
  { load_song := fun _ => .error "Failed to load",
    get_samples := fun _ => 0,
    get_frequency := fun _ => 44100,
    mp3_probe := fun _ => [],
    resample_len := fun _ => 0,
    fft_data := fun _ => [] }

/-- Engine state with a loaded, playing chip player, an empty ring and no
pending metadata; codec rate equal to the device rate (passthrough). -/
def playingState : EngineState :=
  { player := { chip_player := some {}, song := 0, songs := 1, millis := 0,
                play_state := .Playing, ff_msec := 0, new_song := none },
    last_state := .Playing, plugin_freq := 44100,
    resampler_source := 44100, resampler_target := 44100,
    ring_occupied := 0, calls := 0 }

/-- The exhausted decoder at a codec rate of 22050 Hz (device at 44100). -/
def exhaustedEnv22 : Env :=
  { exhaustedEnv with get_frequency := fun _ => 22050 }

/-- Like `playingState`, but after the codec reported 22050 Hz: the
resampler is not in passthrough. -/
def playingState22 : EngineState :=
  { playingState with plugin_freq := 22050,
                      resampler_source := 22050, resampler_target := 44100 }

/-- Committed-document count of an indexer run (0 for a failed run). -/
def committedCount (r : Except String Indexer) : Nat :=
  match r with
  | .ok ix => ix.committed.length
  | .error _ => 0

/-! Theorems. -/

/-- C8: for every rate r, after `set_frequencies(r, r)` the resampler is in
passthrough and `process(xs)` returns the input slice bit-identically, for
every input and every behaviour of the external sinc core. -/
theorem resampler_passthrough_identity (core : List ℚ → Except String (List ℚ))
    (rs : Resampler) (r : ℚ) (xs : List ℚ) :
    ((rs.set_frequencies r r).fst).process core xs = .ok xs := by
  unfold Resampler.set_frequencies Resampler.process
  split <;> simp

/-- C10: a search whose query fails to parse returns an error before
`result.clear()` and leaves the indexer, in particular its stored result
list, unchanged, so subsequent `get_songs`/`song_len` observe the results of
the last successful search. -/
theorem search_parse_failure_preserves_result
    (parse : String → Option (List Doc → List Doc)) (ix : Indexer) (q : String)
    (h : parse q = none) :
    Indexer.search parse ix q = (ix, .error "query parse error") := by
  simp [Indexer.search, h]

/-- C10 witness: a concrete unparsable query against an indexer holding one
result leaves that result in place. -/
theorem search_parse_failure_preserves_result_witness :
    Indexer.search (fun _ => none)
        { result := [{ path := ["a.mod"], meta_data := [] }] } "AND (" =
      ({ result := [{ path := ["a.mod"], meta_data := [] }] },
        .error "query parse error") :=
  search_parse_failure_preserves_result (fun _ => none) _ "AND (" rfl

/-- C3 counterexample: with no loaded chip player, `prev_song` returns
`Ok(true)` — not the `"No active song"` error the claim requires of both
methods. -/
theorem prev_song_no_player_returns_ok :
    (Player.prev_song {}).snd = .ok true ∧
    (Player.prev_song {}).snd ≠ .error "No active song" := by
  constructor
  · rfl
  · intro h
    simp [Player.prev_song] at h

/-- C3 amended: without a loaded player, `next_song` fails with
`"No active song"` leaving the player unchanged, while `prev_song` silently
returns `Ok(true)`, also leaving the player unchanged. -/
theorem next_prev_song_no_player (p : Player) (h : p.chip_player = none) :
    p.next_song = (p, .error "No active song") ∧ p.prev_song = (p, .ok true) := by
  constructor
  · simp [Player.next_song, h]
  · unfold Player.prev_song
    rw [h]
    split <;> rfl

/-- C3 amended witness: the default (empty) player. -/
theorem next_prev_song_no_player_witness :
    Player.next_song {} = ({}, .error "No active song") ∧
    Player.prev_song {} = ({}, .ok true) :=
  next_prev_song_no_player {} rfl

/-- C4 counterexample: a failing `load` does not leave the player unchanged:
the previously loaded chip player has already been dropped
(`self.chip_player = None;` precedes the fallible `load_song`). -/
theorem load_failure_changes_state :
    (Player.load (fun _ => .error "Failed to load")
        { chip_player := some {}, songs := 1, play_state := .Playing }
        "bad.mod").fst ≠
      { chip_player := some {}, songs := 1, play_state := .Playing } := by
  decide

/-- C4 amended: if `load(path)` fails, every field except `chip_player` is
unchanged (`song`, `songs`, `play_state`, `ff_msec`, `new_song`, clock), but
`chip_player` is cleared to `None`; the failure is propagated by the command
drain as an `("error", ..)` info event and the loop goes on (`play_state`,
which alone decides loop exit, is untouched). -/
theorem load_failure_clears_player (ls : String → Except String ChipPlayer)
    (p : Player) (name e : String) (h : ls name = .error e) :
    (p.load ls name).fst = { p with chip_player := none } ∧
    (p.load ls name).fst.play_state = p.play_state ∧
    drainCommands ls [Cmd.load name] p =
      ({ p with chip_player := none }, [("error", Value.Error e)]) := by
  refine ⟨?_, ?_, ?_⟩
  · simp [Player.load, h]
  · simp [Player.load, h]
  · simp [drainCommands, applyCmd, Player.load, h]

/-- C4 amended witness: a concrete failing loader on a playing player. -/
theorem load_failure_clears_player_witness :
    (Player.load (fun _ => .error "Failed to load")
        { chip_player := some {}, songs := 1, play_state := .Playing }
        "bad.mod").fst =
      { chip_player := none, songs := 1, play_state := .Playing } ∧
    (Player.load (fun _ => .error "Failed to load")
        { chip_player := some {}, songs := 1, play_state := .Playing }
        "bad.mod").fst.play_state = PlayState.Playing ∧
    drainCommands (fun _ => .error "Failed to load") [Cmd.load "bad.mod"]
        { chip_player := some {}, songs := 1, play_state := .Playing } =
      ({ chip_player := none, songs := 1, play_state := .Playing },
        [("error", Value.Error "Failed to load")]) :=
  load_failure_clears_player (fun _ => .error "Failed to load")
    { chip_player := some {}, songs := 1, play_state := .Playing }
    "bad.mod" "Failed to load" rfl

/-- C5 counterexample: with a loaded player and `songs = 1`, `set_song 5`
leaves `song = 5 ∉ [0, songs)` — `set_song` stores the requested index
without clamping. -/
theorem set_song_breaks_invariant :
    songInv { chip_player := some {}, songs := 1 } ∧
    (Player.set_song { chip_player := some {}, songs := 1 } 5).fst.chip_player.isSome = true ∧
    0 < (Player.set_song { chip_player := some {}, songs := 1 } 5).fst.songs ∧
    ¬ songInv (Player.set_song { chip_player := some {}, songs := 1 } 5).fst := by
  decide

/-- C5 amended: `next_song`, `prev_song`, `play_pause`, `ff` and `quit`
preserve `song ∈ [0, songs)`, and `load` leaves `song` and `songs` unchanged;
but `set_song(n)` stores `n` unclamped (and the metadata drain parses
decoder-supplied values into `song`/`songs`), so those two can leave `song`
outside the range. -/
theorem player_ops_preserve_song_invariant (p : Player) (m : Nat)
    (ls : String → Except String ChipPlayer) (name : String) (h : songInv p) :
    songInv p.next_song.fst ∧ songInv p.prev_song.fst ∧
    songInv p.play_pause.fst ∧ songInv (p.ff m).fst ∧ songInv p.quit.fst ∧
    (p.load ls name).fst.song = p.song ∧ (p.load ls name).fst.songs = p.songs := by
  unfold songInv at h ⊢
  refine ⟨?_, ?_, ?_, ?_, ?_, ?_, ?_⟩
  · unfold Player.next_song Player.reset
    cases p.chip_player
    · simpa using h
    · dsimp only
      split <;> simpa using h
  · unfold Player.prev_song Player.reset
    split
    · cases p.chip_player <;> simpa using h
    · simpa using h
  · unfold Player.play_pause
    simpa using h
  · unfold Player.ff
    simpa using h
  · unfold Player.quit
    simpa using h
  · unfold Player.load
    cases ls name <;> simp
  · unfold Player.load
    cases ls name <;> simp

/-- C5 amended witness: a playing player with one song. -/
theorem player_ops_preserve_song_invariant_witness :
    songInv (Player.next_song { chip_player := some {}, songs := 1 }).fst ∧
    songInv (Player.prev_song { chip_player := some {}, songs := 1 }).fst ∧
    songInv (Player.play_pause { chip_player := some {}, songs := 1 }).fst ∧
    songInv (Player.ff { chip_player := some {}, songs := 1 } 3).fst ∧
    songInv (Player.quit { chip_player := some {}, songs := 1 }).fst ∧
    (Player.load (fun _ => .error "Failed to load")
        { chip_player := some {}, songs := 1 } "x.mod").fst.song = 0 ∧
    (Player.load (fun _ => .error "Failed to load")
        { chip_player := some {}, songs := 1 } "x.mod").fst.songs = 1 :=
  player_ops_preserve_song_invariant { chip_player := some {}, songs := 1 } 3
    (fun _ => .error "Failed to load") "x.mod" (by decide)

/-- C7 counterexample: with one stored result, `get_songs(2, 5)` hits the
slice `result[2..1]` (stop clamped to the length, start taken verbatim) and
panics — it is not total in `start`. -/
theorem get_songs_panics_on_large_start :
    get_songs [(0 : Nat)] 2 5 = .error "range out of bounds" := by rfl

/-- C7 amended: `get_songs(start, stop)` clamps only `stop` to the result
length (and an empty result always yields `[]`); for a non-empty result it
returns the slice when `start ≤ min stop len` and panics when
`start > min stop len` — `start` is not clamped. -/
theorem get_songs_clamps_stop_only {α : Type} (result : List α) (start stop : Nat) :
    (result.length = 0 → get_songs result start stop = .ok []) ∧
    (start ≤ min stop result.length →
      get_songs result start stop =
        .ok ((result.drop start).take (min stop result.length - start))) ∧
    (result.length ≠ 0 → min stop result.length < start →
      get_songs result start stop = .error "range out of bounds") := by
  unfold get_songs rustSlice
  refine ⟨?_, ?_, ?_⟩
  · intro h
    simp [h]
  · intro h
    rcases Nat.eq_zero_or_pos result.length with h0 | h0
    · rw [List.length_eq_zero] at h0
      subst h0
      simp at h ⊢
    · have hne : ¬ result.length = 0 := by omega
      by_cases hs : stop > result.length
      · have hmin : min stop result.length = result.length := by omega
        rw [hmin] at h
        simp [hne, hs, h, hmin]
      · have hmin : min stop result.length = stop := by omega
        rw [hmin] at h
        simp [hne, hs, h, hmin]
  · intro hne hlt
    by_cases hs : stop > result.length
    · have : ¬ (start ≤ result.length ∧ result.length ≤ result.length) := by omega
      simp [hne, hs, this]
      omega
    · have : ¬ (start ≤ stop ∧ stop ≤ result.length) := by omega
      simp [hne, hs, this]

/-- C7 amended witness: a three-element result sliced as [1, 5] (stop
clamped to 3), and the empty result with wild bounds. -/
theorem get_songs_clamps_stop_only_witness :
    get_songs [(10 : Nat), 20, 30] 1 5 = .ok [20, 30] ∧
    get_songs ([] : List Nat) 7 2 = .ok [] := by
  constructor
  · have := (get_songs_clamps_stop_only [(10 : Nat), 20, 30] 1 5).2.1 (by decide)
    simpa using this
  · exact (get_songs_clamps_stop_only ([] : List Nat) 7 2).1 (by decide)

/-- ringbuf `pop_slice` moves `min ring.length data.length` elements: the ring
loses its first `data.length` elements, the output becomes the copied prefix
followed by its own untouched tail. -/
theorem pop_slice_spec {α : Type} : ∀ (ring data : List α),
    pop_slice ring data =
      (ring.drop data.length, ring.take data.length ++ data.drop ring.length,
        min ring.length data.length)
  | ring, [] => by
    cases ring <;> simp [pop_slice]
  | [], d :: data => by
    simp [pop_slice]
  | x :: ring, d :: data => by
    simp [pop_slice, pop_slice_spec ring data, Nat.succ_min_succ]

/-- C2 counterexample: one sample available, a two-slot output buffer holding
stale values 5, 5: the callback copies the 1 available sample and leaves the
tail as 5 — the remaining n - k positions are not zero-filled after a partial
read. -/
theorem audio_callback_no_zero_fill_on_partial :
    (audio_callback (0 : Int) 44100 0 [1] [5, 5]).2.1 = [1, 5] ∧
    ((audio_callback (0 : Int) 44100 0 [1] [5, 5]).2.1).drop 1 ≠ [0] := by
  decide

/-- C2 amended: the callback copies `k = min(n, available)` samples into the
first k output positions; when `k = 0` the whole buffer is zero-filled, but
when `k > 0` the remaining `n - k` positions keep their previous contents
(no zero fill after a partial read) and the clock advances by
`n·1000/(freq·2)`. -/
theorem audio_callback_copy_or_zero {α : Type} (zero : α) (freq msec : Nat)
    (ring data : List α) :
    (0 < min ring.length data.length →
      audio_callback zero freq msec ring data =
        (ring.drop data.length,
          ring.take data.length ++ data.drop ring.length,
          msec + data.length * 1000 / (freq * 2))) ∧
    (min ring.length data.length = 0 →
      audio_callback zero freq msec ring data =
        (ring, List.replicate data.length zero, msec)) := by
  unfold audio_callback
  rw [pop_slice_spec]
  constructor
  · intro h
    simp [h]
  · intro h
    simp [h]

/-- C2 amended witness: partial read (1 of 2) keeps the stale tail; empty
ring zero-fills. -/
theorem audio_callback_copy_or_zero_witness :
    audio_callback (0 : Int) 44100 7 [1] [5, 5] = ([], [1, 5], 7) ∧
    audio_callback (0 : Int) 44100 7 [] [5, 5] = ([], [0, 0], 7) := by
  constructor
  · have := (audio_callback_copy_or_zero (0 : Int) 44100 7 [1] [5, 5]).1 (by decide)
    simpa using this
  · have := (audio_callback_copy_or_zero (0 : Int) 44100 7 [] [5, 5]).2 (by decide)
    simpa using this

/-- Helper: a non-empty list has a last element. -/
theorem exists_getLast?_of_ne_nil {α : Type} :
    ∀ (l : List α), l ≠ [] → ∃ f, l.getLast? = some f
  | [a], _ => ⟨a, rfl⟩
  | _a :: b :: l, _ => by
    obtain ⟨f, hf⟩ := exists_getLast?_of_ne_nil (b :: l) (by simp)
    exact ⟨f, by rw [List.getLast?_cons_cons, hf]⟩

/-- Helper: `add_with_info` on a path with a file name succeeds and adds
exactly one pending document, bumping the counter. -/
theorem add_with_info_ok (ix : Indexer) (p : RPath) (info : SongInfo)
    (h : p ≠ []) :
    ∃ ix', ix.add_with_info p info = .ok ix' ∧ ix'.count = ix.count + 1 ∧
      ix'.pending.length = ix.pending.length + 1 ∧ ix'.committed = ix.committed := by
  obtain ⟨f, hf⟩ := exists_getLast?_of_ne_nil p h
  unfold Indexer.add_with_info
  rw [hf]
  dsimp only
  split
  · exact ⟨_, rfl, rfl, by simp, rfl⟩
  · exact ⟨_, rfl, rfl, by simp, rfl⟩

/-- Helper: `add_path` on a path with a file name succeeds and adds exactly
one pending document, bumping the counter, in each of its three branches. -/
theorem add_path_ok (ix : Indexer) (p : RPath) (h : p ≠ []) :
    ∃ ix', ix.add_path p = .ok ix' ∧ ix'.count = ix.count + 1 ∧
      ix'.pending.length = ix.pending.length + 1 ∧ ix'.committed = ix.committed := by
  unfold Indexer.add_path
  dsimp only
  by_cases h3 : 3 ≤ p.reverse.length ∧ p.reverse.getD 2 "" ∈ FORMAT_DIRS
  · rw [if_pos h3]
    exact add_with_info_ok ix p _ h
  · rw [if_neg h3]
    by_cases h4 : 4 ≤ p.reverse.length ∧ p.reverse.getD 3 "" ∈ FORMAT_DIRS
    · rw [if_pos h4]
      exact add_with_info_ok ix p _ h
    · rw [if_neg h4]
      obtain ⟨f, hf⟩ := exists_getLast?_of_ne_nil p h
      rw [hf]
      dsimp only
      split
      · exact ⟨_, rfl, rfl, by simp, rfl⟩
      · exact ⟨_, rfl, rfl, by simp, rfl⟩

/-- Helper: the per-file walk body indexes every file on which
`identify_song` does not error: one document per file, whichever way
`identify` answers. -/
theorem addFiles_ok (identify : RPath → Except String (Option SongInfo)) :
    ∀ (files : List RPath) (ix : Indexer), (∀ f ∈ files, f ≠ []) →
    (∀ f ∈ files, ∃ o, identify f = Except.ok o) →
    ∃ ix', addFiles identify ix files = .ok ix' ∧
      ix'.count = ix.count + files.length ∧
      ix'.pending.length = ix.pending.length + files.length ∧
      ix'.committed = ix.committed
  | [], ix, _, _ => ⟨ix, rfl, by simp, by simp, rfl⟩
  | f :: fs, ix, h, hid => by
    have hf : f ≠ [] := h f (List.mem_cons_self f fs)
    have hrest : ∀ g ∈ fs, g ≠ [] := fun g hg => h g (List.mem_cons_of_mem f hg)
    have hidrest : ∀ g ∈ fs, ∃ o, identify g = Except.ok o :=
      fun g hg => hid g (List.mem_cons_of_mem f hg)
    obtain ⟨o, ho⟩ := hid f (List.mem_cons_self f fs)
    cases o with
    | some info =>
      obtain ⟨ix1, h1, hc1, hp1, hm1⟩ := add_with_info_ok ix f info hf
      obtain ⟨ix2, h2, hc2, hp2, hm2⟩ := addFiles_ok identify fs ix1 hrest hidrest
      refine ⟨ix2, ?_, ?_, ?_, ?_⟩
      · unfold addFiles
        rw [ho]
        dsimp only [Bind.bind, Except.bind]
        rw [h1]
        exact h2
      · rw [hc2, hc1]
        simp
        omega
      · rw [hp2, hp1]
        simp
        omega
      · rw [hm2, hm1]
    | none =>
      obtain ⟨ix1, h1, hc1, hp1, hm1⟩ := add_path_ok ix f hf
      obtain ⟨ix2, h2, hc2, hp2, hm2⟩ := addFiles_ok identify fs ix1 hrest hidrest
      refine ⟨ix2, ?_, ?_, ?_, ?_⟩
      · unfold addFiles
        rw [ho]
        dsimp only [Bind.bind, Except.bind]
        rw [h1]
        exact h2
      · rw [hc2, hc1]
        simp
        omega
      · rw [hp2, hp1]
        simp
        omega
      · rw [hm2, hm1]

/-- C6 counterexample: a root holding the single file `music/foo.txt`
(extension in the claimed blacklist, not identified by any codec): the run
still commits one document for it — there is no blacklist and no
`can_handle` gate in the worker. -/
theorem blacklisted_file_is_indexed :
    committedCount (runAddPath (fun _ => .ok none) {} [["music", "foo.txt"]]) = 1 := by
  rfl

/-- C6 amended: `AddPath` indexes every regular file of the walk on which
`identify_song` does not error: identified files get a title/composer
document via `add_with_info`, every other file goes through `add_path`
(Modland-heuristic metadata when the ancestor chain matches, else a
filename/path-only document).  No extension blacklist and no `can_handle`
filter exist; each file adds exactly one document, all visible after the
final commit.  An `identify_song` I/O error (unreadable or short `.sid`
header) instead aborts the walk before that commit — the disposition
`addFiles`/`runAddPath` propagate. -/
theorem run_indexes_every_file (identify : RPath → Except String (Option SongInfo))
    (ix : Indexer) (files : List RPath) (h : ∀ f ∈ files, f ≠ [])
    (hid : ∀ f ∈ files, ∃ o, identify f = Except.ok o) :
    ∃ ix', runAddPath identify ix files = .ok ix' ∧
      ix'.count = ix.count + files.length ∧
      ix'.committed.length = ix.committed.length + ix.pending.length + files.length ∧
      ix'.pending = [] := by
  obtain ⟨ix1, h1, hc, hp, hm⟩ := addFiles_ok identify files ix h hid
  refine ⟨ix1.commit, ?_, ?_, ?_, rfl⟩
  · unfold runAddPath
    rw [h1]
    rfl
  · simpa [Indexer.commit] using hc
  · simp [Indexer.commit, hm, hp]
    omega

/-- C6 amended witness: two files (one .txt, one .mod), identify_song
succeeding (with no identification) on both, both indexed. -/
theorem run_indexes_every_file_witness :
    ∃ ix', runAddPath (fun _ => .ok none) {} [["music", "a.txt"], ["m", "b.mod"]] = .ok ix' ∧
      ix'.count = 0 + 2 ∧ ix'.committed.length = 0 + 0 + 2 ∧ ix'.pending = [] := by
  have := run_indexes_every_file (fun _ => .ok none) {}
    [["music", "a.txt"], ["m", "b.mod"]] (by decide) (fun f _ => ⟨none, rfl⟩)
  simpa using this

/-- C9: for a non-empty input slice (and the positive divider the
configuration guarantees), the length of `Fft::run`'s output equals the
number of frequency bins falling in [min_freq, max_freq] for the FFT size
obtained by padding ⌈len/divider⌉ up to the next power of two — for every
window weighting and every magnitude function, hence a function of the
parameters and the input length only, never of the sample values. -/
theorem fft_run_length_law (w : Nat → ℚ) (mag : List ℚ → Nat → ℚ) (fft : Fft)
    (samples : List ℚ) (freq : Nat) (_hdiv : 0 < fft.divider)
    (_hne : samples ≠ []) :
    (Fft.run w mag fft samples freq).length =
      numBins (nextPow2 ((samples.length + fft.divider - 1) / fft.divider))
        freq fft.min_freq fft.max_freq := by
  have hle : (samples.length + fft.divider - 1) / fft.divider ≤
      nextPow2 ((samples.length + fft.divider - 1) / fft.divider) :=
    Nat.le_pow_clog (by norm_num) _
  unfold Fft.run samples_fft_to_spectrum hann_window numBins
  dsimp only
  simp only [List.length_map, List.length_mapIdx, List.length_append,
    List.length_replicate, List.length_range]
  rw [Nat.add_sub_cancel' hle]

/-- C9 witness: nine samples, divider 8, default 15–4000 Hz band at a 44100
Hz device rate. -/
theorem fft_run_length_law_witness :
    (Fft.run (fun _ => 1) (fun _ _ => 0)
        { divider := 8, min_freq := 15, max_freq := 4000 }
        (List.replicate 9 (1 : ℚ)) 44100).length =
      numBins (nextPow2 (((List.replicate 9 (1 : ℚ)).length + 8 - 1) / 8))
        44100 15 4000 :=
  fft_run_length_law (fun _ => 1) (fun _ _ => 0)
    { divider := 8, min_freq := 15, max_freq := 4000 }
    (List.replicate 9 (1 : ℚ)) 44100 (by decide) (by simp)

/-- C1 counterexample: a loaded, playing engine, codec and device both at
44100 Hz (passthrough), decoder exhausted (`get_samples` returns 0 on every
call): two consecutive loop iterations emit two `("done", 0)` events — a
second one is emitted while the decoder keeps returning 0, so the event is
not emitted exactly once per exhaustion. -/
theorem done_emitted_twice_on_exhaustion :
    doneCount (engineRun exhaustedEnv 44100 1024 [[], []] playingState).1 = 2 := by
  rfl

/-- C1 amended: a loop iteration in which `get_samples` returns 0 (playing
state, empty command queue, no pending metadata, enough ring vacancy,
unchanged codec rate) emits exactly one `("done", 0)`.  In resampler
passthrough the iteration completes, and with no per-exhaustion latch the
event recurs on every further polled iteration while the decoder keeps
returning 0; with source and target rates differing, the iteration still
emits its single `("done", 0)` but then kills the engine fatally — the
fixed-input sinc resampler rejects the empty read. -/
theorem done_once_per_zero_read_iteration (env : Env)
    (playback_freq buffer_size : Nat) (st : EngineState)
    (hcp : st.player.chip_player = some { pending_meta := [] })
    (hns : st.player.new_song = none)
    (hff : st.player.ff_msec = 0)
    (hps : st.player.play_state = .Playing)
    (hls : st.last_state = .Playing)
    (hvac : RING_BUFFER_SIZE - st.ring_occupied > buffer_size * 2)
    (hrc : env.get_samples st.calls = 0)
    (hfreq : env.get_frequency st.calls = st.plugin_freq)
    (hbs : buffer_size ≠ 0) :
    (engineStep env playback_freq buffer_size [] st).1
        = [("done", Value.Number 0)] ∧
    (st.resampler_source = st.resampler_target →
      ∃ st', (engineStep env playback_freq buffer_size [] st).2 = .ok st') ∧
    (st.resampler_source ≠ st.resampler_target →
      (engineStep env playback_freq buffer_size [] st).2 =
        .error "Resampler: WrongNumberOfFrames") := by
  have hbs0 : ¬ ((0 : Nat) = buffer_size) := fun hh => hbs hh.symm
  unfold engineStep drainCommands Player.update_meta drain_meta
  dsimp only
  rw [hns, hcp]
  dsimp only
  rw [hps, hls, hff, hrc, hfreq]
  by_cases hpass : st.resampler_source = st.resampler_target
  · simp [hvac, hps, hbs0, hpass]
  · simp [hvac, hps, hbs0, hpass]

/-- C1 amended witness: the exhausted engine in passthrough (one successful
`("done", 0)` iteration) and at mismatched rates 22050/44100 (the same
single `("done", 0)`, then the fatal resampler error). -/
theorem done_once_per_zero_read_iteration_witness :
    (engineStep exhaustedEnv 44100 1024 [] playingState).1
        = [("done", Value.Number 0)] ∧
    (∃ st', (engineStep exhaustedEnv 44100 1024 [] playingState).2 = .ok st') ∧
    (engineStep exhaustedEnv22 44100 1024 [] playingState22).1
        = [("done", Value.Number 0)] ∧
    (engineStep exhaustedEnv22 44100 1024 [] playingState22).2 =
      .error "Resampler: WrongNumberOfFrames" := by
  refine ⟨?_, ?_, ?_, ?_⟩
  · exact (done_once_per_zero_read_iteration exhaustedEnv 44100 1024 playingState
      rfl rfl rfl rfl rfl (by decide) rfl rfl (by decide)).1
  · exact (done_once_per_zero_read_iteration exhaustedEnv 44100 1024 playingState
      rfl rfl rfl rfl rfl (by decide) rfl rfl (by decide)).2.1 rfl
  · exact (done_once_per_zero_read_iteration exhaustedEnv22 44100 1024 playingState22
      rfl rfl rfl rfl rfl (by decide) rfl rfl (by decide)).1
  · exact (done_once_per_zero_read_iteration exhaustedEnv22 44100 1024 playingState22
      rfl rfl rfl rfl rfl (by decide) rfl rfl (by decide)).2.2 (by decide)

end RustPlay
